import Mathlib

/-!
Verification development for the M5Stack CoreS3 UNIT_8ENCODER sketch.

The definitions below are a shallow embedding of the sketch's core logic:
the scale/chord engine (scale intervals, diatonic triad classification,
chord generation, parameter wrap policy), the encoder step accumulator,
the MIDI note clamping helpers, the touch-to-panic path, and the
button press/hold/release dispatch. Machine integers are modelled as
Int/Nat, with C truncated division and modulus rendered as Int.tdiv and
Int.tmod. Stateful routines become explicit state-passing functions that
additionally return the list of MIDI events they emit.
-/

namespace Enc8

/-! ### Scale table (ScaleManager collaborator) -/

/-- Modelled from the spec: the scale-table collaborator (the external
ScaleManager library, which is not among the sources) supplies seven
ascending degree offsets per scale index 0..8. The per-scale step
patterns are transcribed from the intvlFormula table in the source
(W=2, H=1, 3H=3 semitones). -/
def scaleSteps : Nat → List Nat
  | 0 => [2, 2, 1, 2, 2, 2, 1]
  | 1 => [2, 1, 2, 2, 1, 2, 2]
  | 2 => [2, 1, 2, 2, 2, 1, 2]
  | 3 => [2, 1, 2, 2, 1, 3, 1]
  | 4 => [2, 1, 2, 2, 2, 1, 2]
  | 5 => [1, 2, 2, 2, 1, 2, 2]
  | 6 => [2, 2, 2, 1, 2, 2, 1]
  | 7 => [2, 2, 1, 2, 2, 1, 2]
  | _ => [1, 2, 2, 1, 2, 2, 2]

/-- Modelled from the spec: the semitone offset of degree `d` of scale `s`
above the fundamental, the sum of the first `d` scale steps. -/
def scaleOffset (s d : Nat) : Nat := ((scaleSteps s).take d).sum

/-- Modelled from the spec: ScaleManager.getScaleNote returns the
fundamental plus the degree offset; the value may exceed 11 (the callers
in the source subtract 12 when it does). -/
def getScaleNote (s root d : Nat) : Nat := root + scaleOffset s d

/-- The seven entries of the source's scaleNoteNo array, refreshed from
scalemanager.getScaleNote at the top of setScaleIntervals. -/
def scaleNoteList (s root : Nat) : List Int :=
  (List.range 7).map (fun d => (getScaleNote s root d : Int))

/-! ### setScaleIntervals -/

/-- The interval computation inside setScaleIntervals: the forward
distance from currentNote to nextNote, adding 12 on octave wrap. -/
def intervalBetween (currentNote nextNote : Int) : Int :=
  if nextNote < currentNote then (12 - currentNote) + nextNote else nextNote - currentNote

/-- setScaleIntervals from the source: locate the fundamental inside the
scale-note array, then compute the seven successive intervals starting
from that rotation. Returns none when the fundamental is not found (the
source prints an error and leaves the intervals unchanged). -/
def setScaleIntervals (scaleNoteNo : List Int) (fundamentalIndex : Int) : Option (List Int) :=
  match scaleNoteNo.findIdx? (fun n => n = fundamentalIndex) with
  | none => none
  | some fundamentalScaleIndex =>
      some ((List.range 7).map (fun i =>
        intervalBetween (scaleNoteNo.getD ((fundamentalScaleIndex + i) % 7) 0)
                        (scaleNoteNo.getD ((fundamentalScaleIndex + i + 1) % 7) 0)))

/-! ### Chord system -/

inductive ChordType
  | triad
  | seventh
  | minorTriad
  | minorSeventh
  | diminished
  | diminishedSeventh
  | augmented
  deriving DecidableEq

/-- The norm12 lambda in determineDiatonicTriadForDegree: C truncated
modulus by 12 followed by a correction for negative values. -/
def norm12 (v : Int) : Int :=
  let n := Int.tmod v 12
  if n < 0 then n + 12 else n

/-- The degree normalisation at the top of determineDiatonicTriadForDegree:
C truncated modulus by 7 followed by a correction for negative values. -/
def normDegree (degree : Int) : Nat :=
  let d := Int.tmod degree 7
  (if d < 0 then d + 7 else d).toNat

/-- determineDiatonicTriadForDegree from the source: read the pitch
classes at degrees d, d+2, d+4 (mod 7), classify by the two ascending
semitone gaps; any unrecognised gap pair falls back to a major triad. -/
def determineDiatonicTriadForDegree (s root : Nat) (degree : Int) : ChordType :=
  let d0 := normDegree degree
  let pc0 := norm12 (getScaleNote s root d0)
  let pc1 := norm12 (getScaleNote s root ((d0 + 2) % 7))
  let pc2 := norm12 (getScaleNote s root ((d0 + 4) % 7))
  let i1 := Int.tmod (pc1 - pc0 + 12) 12
  let i2 := Int.tmod (pc2 - pc1 + 12) 12
  if i1 = 4 ∧ i2 = 3 then ChordType.triad
  else if i1 = 3 ∧ i2 = 4 then ChordType.minorTriad
  else if i1 = 3 ∧ i2 = 3 then ChordType.diminished
  else if i1 = 4 ∧ i2 = 4 then ChordType.augmented
  else ChordType.triad

structure Chord where
  rootNote : Int
  notes : List Int
  type : ChordType
  scaleDegree : Int
  deriving DecidableEq

/-- The switch statement of generateChordForDegree: the note list built
from the absolute root by the fixed semitone intervals of each chord
type. -/
def chordNotesFor (chordType : ChordType) (absoluteRoot : Int) : List Int :=
  match chordType with
  | ChordType.triad =>
      [absoluteRoot, Int.tmod (absoluteRoot + 4) 12, Int.tmod (absoluteRoot + 7) 12]
  | ChordType.minorTriad =>
      [absoluteRoot, Int.tmod (absoluteRoot + 3) 12, Int.tmod (absoluteRoot + 7) 12]
  | ChordType.diminished =>
      [absoluteRoot, Int.tmod (absoluteRoot + 3) 12, Int.tmod (absoluteRoot + 6) 12]
  | ChordType.augmented =>
      [absoluteRoot, Int.tmod (absoluteRoot + 4) 12, Int.tmod (absoluteRoot + 8) 12]
  | ChordType.seventh =>
      [absoluteRoot, Int.tmod (absoluteRoot + 4) 12, Int.tmod (absoluteRoot + 7) 12,
        Int.tmod (absoluteRoot + 11) 12]
  | ChordType.minorSeventh =>
      [absoluteRoot, Int.tmod (absoluteRoot + 3) 12, Int.tmod (absoluteRoot + 7) 12,
        Int.tmod (absoluteRoot + 10) 12]
  | ChordType.diminishedSeventh =>
      [absoluteRoot, Int.tmod (absoluteRoot + 3) 12, Int.tmod (absoluteRoot + 6) 12,
        Int.tmod (absoluteRoot + 9) 12]

/-- generateChordForDegree from the source: guard the degree range,
take the scale note of the degree as absolute root (mod 12), preserve
the chord type across the rebuild, and build the notes from the type's
fixed intervals. -/
def generateChordForDegree (s root : Nat) (preservedType : ChordType) (degree : Int) :
    Option Chord :=
  if degree < 0 ∨ 6 < degree then none
  else
    let scaleRoot : Int := getScaleNote s root degree.toNat
    let absoluteRoot := Int.tmod scaleRoot 12
    some { rootNote := absoluteRoot, notes := chordNotesFor preservedType absoluteRoot,
           type := preservedType, scaleDegree := degree }

/-- selectChordByDegree from the source: wrap the degree into 0..6
(below 0 becomes 6, above 6 becomes 0) before regenerating. -/
def wrapChordDegree (degree : Int) : Int :=
  let d1 := if degree < 0 then 6 else degree
  if d1 > 6 then 0 else d1

/-- The chord-tone set exactly as the spec's sentence describes it:
the pitch classes at scale degrees d, d+2, d+4 (mod 7), and for a
seventh chord additionally the degree d+6 tone. Stated from the spec's
words, for comparison against the source's generateChordForDegree. -/
def specChordTones (s root d : Nat) (seventh : Bool) : List Int :=
  let pc := fun d0 => norm12 (getScaleNote s root (d0 % 7))
  [pc d, pc (d + 2), pc (d + 4)] ++ (if seventh then [pc (d + 6)] else [])

/-! ### Parameter wrap policy -/

/-- The MODE_SCALE wrap in handleEncoderValueChange. -/
def wrapScaleNo (scaleNo change : Int) : Int :=
  let newScale := scaleNo + change
  if newScale > 8 then 0 else if newScale < 0 then 8 else newScale

/-- The MODE_ROOT wrap in handleEncoderValueChange. -/
def wrapRoot (fundamental change : Int) : Int :=
  let newFundamental := fundamental + change
  if newFundamental > 11 then 0 else if newFundamental < 0 then 11 else newFundamental

/-- The MODE_OCTAVE wrap in handleEncoderValueChange. -/
def wrapOctave (currentOctave change : Int) : Int :=
  let newOctave := currentOctave + change
  if newOctave > 9 then -1 else if newOctave < -1 then 9 else newOctave

/-! ### MIDI note helpers -/

/-- midiFromPitchClass from the source: normalise the pitch class with C
truncated modulus plus negative correction, add (octave + 1) * 12, and
clamp to 0..127. -/
def midiFromPitchClass (pitchClass currentOctave : Int) : Int :=
  let m0 := Int.tmod pitchClass 12
  let m1 := if m0 < 0 then m0 + 12 else m0
  let midi0 := m1 + (currentOctave + 1) * 12
  let midi1 := if midi0 < 0 then 0 else midi0
  if midi1 > 127 then 127 else midi1

/-- getEncoderMidiNote from the source: encoder 7 sends no notes; a scale
note of 12 or more is brought down one octave, then (octave + 1) * 12 is
added and the result clamped to 0..127. -/
def getEncoderMidiNote (encoderIndex : Nat) (scaleNote currentOctave : Int) : Int :=
  if encoderIndex > 6 then 0
  else
    let sn := if scaleNote ≥ 12 then scaleNote - 12 else scaleNote
    let midi0 := sn + (currentOctave + 1) * 12
    let midi1 := if midi0 < 0 then 0 else midi0
    if midi1 > 127 then 127 else midi1

/-! ### Encoder step accumulator -/

/-- One pass of the step-accumulator block in handleEncoderValueChange
(the same pattern is used for the chord degree, chord type and assign
accumulators): add the unit delta; once the magnitude reaches 2, emit
accumulator/2 (C truncated division) and reset the accumulator to 0. -/
def stepAccumFire (stepAccumulator delta : Int) : Int × Option Int :=
  let acc := stepAccumulator + delta
  if acc.natAbs ≥ 2 then (0, some (Int.tdiv acc 2)) else (acc, none)

/-- Run the accumulator from 0 over n consecutive raw steps of the same
delta, collecting every emitted parameter change in order. -/
def runAccum (delta : Int) : Nat → Int × List Int
  | 0 => (0, [])
  | n + 1 =>
      let prev := runAccum delta n
      let step := stepAccumFire prev.1 delta
      (step.1, prev.2 ++ step.2.toList)

/-! ### MIDI events and button state -/

inductive MidiEvent
  | noteOn (note velocity : Int)
  | noteOff (note : Int)
  | controlChange (cc value : Int)
  deriving DecidableEq

def isNoteOff : MidiEvent → Bool
  | MidiEvent.noteOff _ => true
  | _ => false

/-- The per-control button flags of the source: enc[i].isActive,
enc[i].shortPress, waitingForNextPress[i], buttonHoldProcessed[i]. -/
structure BtnState where
  isActive : Bool
  shortPress : Bool
  waitingForNextPress : Bool
  holdProcessed : Bool
  deriving DecidableEq

inductive SystemMode
  | scaleState
  | chordState
  deriving DecidableEq

inductive ChordSubMode
  | chordNormal
  | chordAssign
  deriving DecidableEq

/-- btnStartPress: record the press start, clear the hold-processed flag,
show the short-press visual. -/
def btnStartPress (b : BtnState) : BtnState :=
  { b with holdProcessed := false, shortPress := true }

/-- btnLatchHold: latch the control and mark the hold as processed. -/
def btnLatchHold (_b : BtnState) : BtnState :=
  { isActive := true, shortPress := false, waitingForNextPress := true, holdProcessed := true }

/-- btnUnlatchOnPress: clear the latch; the hold-processed flag is set so
the release edge is not treated as a short press. -/
def btnUnlatchOnPress (_b : BtnState) : BtnState :=
  { isActive := false, shortPress := false, waitingForNextPress := false, holdProcessed := true }

/-- btnReleaseShort: clear the visual and reset the hold flag for the
next cycle. -/
def btnReleaseShort (b : BtnState) : BtnState :=
  { b with shortPress := false, holdProcessed := false }

/-! ### Chord MIDI helpers -/

/-- sendCurrentChordNoteOff: one noteOff per chord note through
midiFromPitchClass; nothing when BLE is not connected. -/
def sendCurrentChordNoteOffEvents (connected : Bool) (chordNotes : List Int)
    (currentOctave : Int) : List MidiEvent :=
  if connected then chordNotes.map (fun n => MidiEvent.noteOff (midiFromPitchClass n currentOctave))
  else []

/-- sendCurrentChordNoteOn: one noteOn per chord note. -/
def sendCurrentChordNoteOnEvents (connected : Bool) (chordNotes : List Int)
    (currentOctave velocity : Int) : List MidiEvent :=
  if connected then
    chordNotes.map (fun n => MidiEvent.noteOn (midiFromPitchClass n currentOctave) velocity)
  else []

/-- panicAllNotesOff: the CC-only panic (sustain off, all notes off, all
sound off); nothing when BLE is not connected. -/
def panicAllNotesOffEvents (connected : Bool) : List MidiEvent :=
  if connected then
    [MidiEvent.controlChange 64 0, MidiEvent.controlChange 123 0, MidiEvent.controlChange 120 0]
  else []

/-! ### Touch-to-panic path -/

/-- The state the touch-to-panic block operates on. -/
structure PanicState where
  mode : SystemMode
  bleMidiConnected : Bool
  chordPlaying : Bool
  chordNotes : List Int
  currentOctave : Int
  chans : Fin 8 → BtnState

/-- handlePanicResetChordIfLatched: only when in chord mode with encoder 6
latched, send the chord noteOff batch, clear chordPlaying and unlatch
encoder 6. -/
def handlePanicResetChordIfLatched (st : PanicState) : PanicState × List MidiEvent :=
  if st.mode = SystemMode.chordState ∧ (st.chans 6).isActive then
    ({ st with
        chordPlaying := false
        chans := Function.update st.chans 6 (btnUnlatchOnPress (st.chans 6)) },
     sendCurrentChordNoteOffEvents st.bleMidiConnected st.chordNotes st.currentOctave)
  else (st, [])

/-- clearAllEncoderLatchesAndVisuals: every channel that is latched or in
a short press is forced back to the idle flags, with holdProcessed set so
the pending release is not treated as a short press. No MIDI is sent. -/
def clearAllEncoderLatchesAndVisuals (chans : Fin 8 → BtnState) : Fin 8 → BtnState :=
  fun i =>
    let b := chans i
    if b.isActive ∨ b.shortPress then
      { isActive := false, shortPress := false, waitingForNextPress := false,
        holdProcessed := true }
    else b

/-- The touch-to-panic block of loop: panicAllNotesOff, then
handlePanicResetChordIfLatched, then clearAllEncoderLatchesAndVisuals,
then chordPlaying := false. -/
def touchPanic (st : PanicState) : PanicState × List MidiEvent :=
  let ccEvents := panicAllNotesOffEvents st.bleMidiConnected
  let afterChord := handlePanicResetChordIfLatched st
  let st2 := afterChord.1
  let st3 := { st2 with
    chans := clearAllEncoderLatchesAndVisuals st2.chans
    chordPlaying := false }
  (st3, ccEvents ++ afterChord.2)

/-- A concrete panic scenario: channel 2 latched in scale mode, BLE
connected, everything else released. -/
def examplePanicChans : Fin 8 → BtnState :=
  fun i =>
    if i = 2 then
      { isActive := true, shortPress := false, waitingForNextPress := true, holdProcessed := true }
    else
      { isActive := false, shortPress := false, waitingForNextPress := false,
        holdProcessed := false }

def examplePanicState : PanicState :=
  { mode := SystemMode.scaleState, bleMidiConnected := true, chordPlaying := false,
    chordNotes := [], currentOctave := 4, chans := examplePanicChans }

/-! ### Parameter-change handlers of handleEncoderValueChange -/

/-- The engine state the encoder-7 parameter cases operate on. -/
structure EngineState where
  mode : SystemMode
  bleMidiConnected : Bool
  chordPlaying : Bool
  enc6Active : Bool
  scaleNo : Int
  fundamental : Nat
  currentOctave : Int
  currentChordDegree : Int
  vel6 : Int
  currentChord : Chord
  deriving DecidableEq

/-- The MODE_SCALE case of handleEncoderValueChange: wrap the scale
index, refresh scale-derived display state, and regenerate the current
chord (updateCurrentChord) with the type preserved. The case sends no
MIDI whatsoever — there is no revoice block. -/
def modeScaleChange (st : EngineState) (change : Int) : EngineState × List MidiEvent :=
  let newScale := wrapScaleNo st.scaleNo change
  let chordNew := (generateChordForDegree newScale.toNat st.fundamental st.currentChord.type
      st.currentChordDegree).getD st.currentChord
  ({ st with scaleNo := newScale, currentChord := chordNew }, [])

/-- The MODE_ROOT case of handleEncoderValueChange: snapshot the previous
chord notes, wrap the root, regenerate the chord, and — only in chord
mode with encoder 6 latched and BLE connected — send noteOff for every
previous note followed by noteOn for the new chord. -/
def modeRootChange (st : EngineState) (change : Int) : EngineState × List MidiEvent :=
  let prevNotes := st.currentChord.notes
  let newFundamental := wrapRoot (st.fundamental : Int) change
  let chordNew := (generateChordForDegree st.scaleNo.toNat newFundamental.toNat
      st.currentChord.type st.currentChordDegree).getD st.currentChord
  let events :=
    if st.mode = SystemMode.chordState ∧ st.enc6Active ∧ st.bleMidiConnected then
      prevNotes.map (fun n => MidiEvent.noteOff (midiFromPitchClass n st.currentOctave)) ++
        sendCurrentChordNoteOnEvents st.bleMidiConnected chordNew.notes st.currentOctave st.vel6
    else []
  ({ st with fundamental := newFundamental.toNat, currentChord := chordNew }, events)

/-- The concrete latched-and-sounding state used to exercise the
MODE_SCALE case: chord mode, BLE connected, chord latched on encoder 6
and sounding, degree 2 major triad of C major (notes E, G#, B as the
preserved triad shape over scale note 4). -/
def exampleLatchedState : EngineState :=
  { mode := SystemMode.chordState, bleMidiConnected := true, chordPlaying := true,
    enc6Active := true, scaleNo := 0, fundamental := 0, currentOctave := 4,
    currentChordDegree := 2, vel6 := 100,
    currentChord := { rootNote := 4, notes := [4, 8, 11], type := ChordType.triad,
                      scaleDegree := 2 } }

/-! ### Action dispatch table -/

inductive ActionKind
  | noteKey
  | chordTrigger
  | panicAction
  | modeCycle
  | assignTrigger
  | noop
  deriving DecidableEq

/-- The allowsLatch field of the concrete ButtonAction instances. -/
def allowsLatch : ActionKind → Bool
  | ActionKind.noteKey => true
  | ActionKind.chordTrigger => true
  | ActionKind.assignTrigger => true
  | ActionKind.panicAction => false
  | ActionKind.modeCycle => false
  | ActionKind.noop => false

/-- The live action map: kDefaultScaleMap for scale mode, and
kDefaultChordMap or kChordAssignMap for chord mode depending on the
submode (applyChordSubModeMapping). -/
def actionMapAt (mode : SystemMode) (sub : ChordSubMode) (i : Fin 8) : ActionKind :=
  match mode with
  | SystemMode.scaleState => if i.val = 7 then ActionKind.modeCycle else ActionKind.noteKey
  | SystemMode.chordState =>
      match sub with
      | ChordSubMode.chordAssign =>
          if i.val = 7 then ActionKind.modeCycle else ActionKind.assignTrigger
      | ChordSubMode.chordNormal =>
          if i.val = 7 then ActionKind.modeCycle
          else if i.val ≤ 1 then ActionKind.chordTrigger
          else ActionKind.noop

def toggleChordSubMode : ChordSubMode → ChordSubMode
  | ChordSubMode.chordNormal => ChordSubMode.chordAssign
  | ChordSubMode.chordAssign => ChordSubMode.chordNormal

/-- The onHold callbacks: the latching actions call btnLatchHold; the
mode-cycle hold toggles the chord submode (encoder 7 in chord mode
only); the panic and no-op holds do nothing. -/
def actOnHold (a : ActionKind) (mode : SystemMode) (i : Fin 8) (b : BtnState)
    (sub : ChordSubMode) : BtnState × ChordSubMode :=
  match a with
  | ActionKind.noteKey => (btnLatchHold b, sub)
  | ActionKind.chordTrigger => (btnLatchHold b, sub)
  | ActionKind.assignTrigger => (btnLatchHold b, sub)
  | ActionKind.modeCycle =>
      (b, if i.val = 7 ∧ mode = SystemMode.chordState then toggleChordSubMode sub else sub)
  | ActionKind.panicAction => (b, sub)
  | ActionKind.noop => (b, sub)

/-- The button-held branch of loop: guarded by pressed, previously
pressed, hold not yet processed and not latched; the encoder-7 path
additionally marks the hold as processed in the dispatcher itself, the
chord-mode encoder-6 path and the generic path rely on the action's own
callback. -/
def holdDispatch (mode : SystemMode) (sub : ChordSubMode) (i : Fin 8) (b : BtnState)
    (buttonPressed buttonWasPressed : Bool) (now pressStart : Nat) : BtnState × ChordSubMode :=
  if buttonPressed = true ∧ buttonWasPressed = true ∧ b.holdProcessed = false ∧
      b.isActive = false then
    if i.val = 7 then
      if now - pressStart ≥ 1000 then
        let r := actOnHold (actionMapAt mode sub i) mode i b sub
        ({ r.1 with holdProcessed := true }, r.2)
      else (b, sub)
    else if mode = SystemMode.chordState ∧ i.val = 6 then
      if now - pressStart ≥ 1000 then actOnHold (actionMapAt mode sub i) mode i b sub
      else (b, sub)
    else if now - pressStart ≥ 1000 then actOnHold (actionMapAt mode sub i) mode i b sub
    else (b, sub)
  else (b, sub)

/-! ### Release dispatch -/

inductive EncoderMode
  | modeDefault
  | modeScale
  | modeRoot
  | modeOctave
  deriving DecidableEq

/-- The (encoder7Mode + 1) % 4 cycle of act_mode_onReleaseShort. -/
def cycleEncoderMode : EncoderMode → EncoderMode
  | EncoderMode.modeDefault => EncoderMode.modeScale
  | EncoderMode.modeScale => EncoderMode.modeRoot
  | EncoderMode.modeRoot => EncoderMode.modeOctave
  | EncoderMode.modeOctave => EncoderMode.modeDefault

/-- The context a release callback reads: BLE connection, the toggle
switch, the note that would be released, the chord, the press duration,
and the mode registers. -/
structure ReleaseCtx where
  connected : Bool
  switchState : Bool
  midiNote : Int
  chordNotes : List Int
  currentOctave : Int
  pressDuration : Nat
  mode : SystemMode
  encoder7Mode : EncoderMode
  sub : ChordSubMode

structure ReleaseResult where
  btn : BtnState
  events : List MidiEvent
  encoder7Mode : EncoderMode
  sub : ChordSubMode

/-- The onReleaseShort callbacks: the note/chord/assign actions are
guarded by not-latched and hold-not-processed; the mode-cycle release
first checks the hold-processed flag and only clears the visual in that
case; the panic release just clears the visual. -/
def actOnReleaseShort (a : ActionKind) (i : Fin 8) (b : BtnState) (ctx : ReleaseCtx) :
    ReleaseResult :=
  match a with
  | ActionKind.noteKey =>
      if b.isActive = false ∧ b.holdProcessed = false then
        { btn := btnReleaseShort b,
          events :=
            if ctx.connected = true ∧ ctx.switchState = false ∧ i.val ≤ 6 then
              [MidiEvent.noteOff ctx.midiNote]
            else [],
          encoder7Mode := ctx.encoder7Mode, sub := ctx.sub }
      else { btn := b, events := [], encoder7Mode := ctx.encoder7Mode, sub := ctx.sub }
  | ActionKind.chordTrigger =>
      if b.isActive = false ∧ b.holdProcessed = false then
        { btn := btnReleaseShort b,
          events := sendCurrentChordNoteOffEvents ctx.connected ctx.chordNotes ctx.currentOctave,
          encoder7Mode := ctx.encoder7Mode, sub := ctx.sub }
      else { btn := b, events := [], encoder7Mode := ctx.encoder7Mode, sub := ctx.sub }
  | ActionKind.assignTrigger =>
      if b.isActive = false ∧ b.holdProcessed = false then
        { btn := btnReleaseShort b,
          events := sendCurrentChordNoteOffEvents ctx.connected ctx.chordNotes ctx.currentOctave,
          encoder7Mode := ctx.encoder7Mode, sub := ctx.sub }
      else { btn := b, events := [], encoder7Mode := ctx.encoder7Mode, sub := ctx.sub }
  | ActionKind.panicAction =>
      { btn := btnReleaseShort b, events := [], encoder7Mode := ctx.encoder7Mode, sub := ctx.sub }
  | ActionKind.modeCycle =>
      if b.holdProcessed = true then
        { btn := { b with shortPress := false }, events := [],
          encoder7Mode := ctx.encoder7Mode, sub := ctx.sub }
      else if ctx.pressDuration < 500 then
        { btn := { b with shortPress := false, holdProcessed := false }, events := [],
          encoder7Mode := cycleEncoderMode ctx.encoder7Mode, sub := ctx.sub }
      else if ctx.pressDuration ≥ 1000 ∧ ctx.mode = SystemMode.chordState then
        { btn := { b with shortPress := false, holdProcessed := false }, events := [],
          encoder7Mode := ctx.encoder7Mode, sub := toggleChordSubMode ctx.sub }
      else
        { btn := { b with shortPress := false, holdProcessed := false }, events := [],
          encoder7Mode := ctx.encoder7Mode, sub := ctx.sub }
  | ActionKind.noop =>
      { btn := b, events := [], encoder7Mode := ctx.encoder7Mode, sub := ctx.sub }

/-! ### Debouncing (isValueStable) and the loop's raw bypass -/

/-- The per-encoder debounce state: the three-sample ring buffer, its
write index, the time of the last accepted change, and the last stable
value. -/
structure DebounceSlot where
  v0 : Int
  v1 : Int
  v2 : Int
  idx : Fin 3
  lastDebounceTime : Nat
  lastStable : Int
  deriving DecidableEq

/-- Writing newValue at the ring-buffer index and advancing the index
modulo 3. -/
def writeSample (st : DebounceSlot) (v : Int) : DebounceSlot :=
  if st.idx.val = 0 then { st with v0 := v, idx := 1 }
  else if st.idx.val = 1 then { st with v1 := v, idx := 2 }
  else { st with v2 := v, idx := 0 }

/-- isValueStable from the source: only past the 5 ms window is the
sample recorded; the value is stable when all three samples agree and
differ from the last stable value, in which case the stable value and
the debounce time are updated. -/
def isValueStable (newValue : Int) (currentTime : Nat) (st : DebounceSlot) :
    Bool × DebounceSlot :=
  if currentTime - st.lastDebounceTime > 5 then
    let st1 := writeSample st newValue
    if st1.v1 = st1.v0 ∧ st1.v2 = st1.v0 ∧ st1.v0 ≠ st1.lastStable then
      (true, { st1 with lastStable := st1.v0, lastDebounceTime := currentTime })
    else (false, st1)
  else (false, st)

/-- The loop's value path: stableValue is assigned the raw reading
directly (the source comment reads: use raw value, bypassing debouncing
for testing). -/
def loopStableValue (currentValue : Int) : Int := currentValue

/-- The loop's propagation guard: the handler runs whenever the
(raw-bypassed) stable value differs from the last seen value. -/
def loopPropagates (stableValue lastEncoderValue : Int) : Bool :=
  decide (stableValue ≠ lastEncoderValue)

/-- A release context for exercising the dispatch: BLE connected, switch
off, a plausible note, a press held past the hold threshold. -/
def exampleReleaseCtx : ReleaseCtx :=
  { connected := true, switchState := false, midiNote := 64, chordNotes := [0, 4, 7],
    currentOctave := 4, pressDuration := 1200, mode := SystemMode.scaleState,
    encoder7Mode := EncoderMode.modeDefault, sub := ChordSubMode.chordNormal }

/-- A control in the pressed-waiting-hold state. -/
def examplePressedBtn : BtnState :=
  { isActive := false, shortPress := true, waitingForNextPress := false, holdProcessed := false }

/-- A debounce slot two agreeing samples deep, outside the window, whose
last stable value differs from the incoming sample. -/
def exampleDebounceSlot : DebounceSlot :=
  { v0 := 7, v1 := 7, v2 := 0, idx := 2, lastDebounceTime := 0, lastStable := 0 }

end Enc8

namespace Enc8

/-! ## Theorems -/

/-- Helper: writeSample never touches the last stable value or the
debounce timestamp. -/
theorem writeSample_preserves_stable (st : DebounceSlot) (v : Int) :
    (writeSample st v).lastStable = st.lastStable ∧
    (writeSample st v).lastDebounceTime = st.lastDebounceTime := by
  unfold writeSample
  split_ifs <;> exact ⟨rfl, rfl⟩

/-- Helper: after clearAllEncoderLatchesAndVisuals every channel reads as
released (neither latched nor in a short press). -/
theorem clearAll_releases (chans : Fin 8 → BtnState) (i : Fin 8) :
    (clearAllEncoderLatchesAndVisuals chans i).isActive = false ∧
    (clearAllEncoderLatchesAndVisuals chans i).shortPress = false := by
  unfold clearAllEncoderLatchesAndVisuals
  by_cases h : (chans i).isActive = true ∨ (chans i).shortPress = true
  · simp [h]
  · push_neg at h
    simp [h.1, h.2]

/-- Claim C1 (code bug): with a chord latched and sounding in chord mode
and BLE connected, a scale change recomputes the chord tones but emits no
MIDI at all — no note-off for the previously-sounding pitches — whereas
the same state under a root change emits a note-off for every previous
pitch before the note-ons of the new set. The spec requires the
note-offs for every parameter kind, scale included. -/
theorem scale_change_while_latched_emits_no_midi :
    exampleLatchedState.mode = SystemMode.chordState ∧
    exampleLatchedState.enc6Active = true ∧
    exampleLatchedState.chordPlaying = true ∧
    exampleLatchedState.bleMidiConnected = true ∧
    exampleLatchedState.currentChord.notes = [4, 8, 11] ∧
    (modeScaleChange exampleLatchedState 1).1.currentChord.notes = [3, 7, 10] ∧
    (modeScaleChange exampleLatchedState 1).2 = [] ∧
    (modeRootChange exampleLatchedState 1).2 =
      [MidiEvent.noteOff 64, MidiEvent.noteOff 68, MidiEvent.noteOff 71,
        MidiEvent.noteOn 65 100, MidiEvent.noteOn 69 100, MidiEvent.noteOn 60 100] := by
  decide

/-- Claim C2 counterexample: a channel other than the chord channel
(here channel 2, latched in scale mode with BLE connected) receives no
individual stop-sounding call from the panic path: the emitted events
are exactly the three global control-change messages and contain zero
note-offs, not one stop call for the previously-latched channel. -/
theorem panic_no_stop_call_for_latched_note_channel :
    (examplePanicChans 2).isActive = true ∧
    (touchPanic examplePanicState).2 =
      [MidiEvent.controlChange 64 0, MidiEvent.controlChange 123 0,
        MidiEvent.controlChange 120 0] ∧
    (touchPanic examplePanicState).2.countP isNoteOff = 0 := by
  decide

/-- Claim C2 (amended): the panic path forces every channel to released
(no latch, no short press) without waiting for release edges and clears
the sounding flag, and its MIDI output is exactly one global CC panic
batch plus one chord note-off batch emitted only when encoder 6 was
latched in chord mode; no other per-channel stop call is made. -/
theorem touchPanic_releases_all_channels (st : PanicState) (i : Fin 8) :
    ((touchPanic st).1.chans i).isActive = false ∧
    ((touchPanic st).1.chans i).shortPress = false ∧
    (touchPanic st).1.chordPlaying = false ∧
    (touchPanic st).2 = panicAllNotesOffEvents st.bleMidiConnected ++
      (if st.mode = SystemMode.chordState ∧ (st.chans 6).isActive then
        sendCurrentChordNoteOffEvents st.bleMidiConnected st.chordNotes st.currentOctave
      else []) := by
  refine ⟨(clearAll_releases ((handlePanicResetChordIfLatched st).1.chans) i).1,
    (clearAll_releases ((handlePanicResetChordIfLatched st).1.chans) i).2, rfl, ?_⟩
  show panicAllNotesOffEvents st.bleMidiConnected ++ (handlePanicResetChordIfLatched st).2 = _
  unfold handlePanicResetChordIfLatched
  split_ifs <;> rfl

/-- Helper: unfolding one step of runAccum. -/
theorem runAccum_succ (delta : Int) (n : Nat) :
    runAccum delta (n + 1) =
      ((stepAccumFire (runAccum delta n).1 delta).1,
        (runAccum delta n).2 ++ (stepAccumFire (runAccum delta n).1 delta).2.toList) := rfl

/-- Claim C3: over n consecutive unit steps of the same sign, the
accumulator fires exactly n / 2 parameter changes, each of magnitude 1
with the sign of the steps, and ends holding n mod 2 in that
direction. -/
theorem runAccum_unit_steps (d : Int) (hd : d = 1 ∨ d = -1) (n : Nat) :
    (runAccum d n).1 = d * ((n % 2 : Nat) : Int) ∧
    (runAccum d n).2 = List.replicate (n / 2) d := by
  induction n with
  | zero => simp [runAccum]
  | succ n ih =>
      obtain ⟨ih1, ih2⟩ := ih
      rcases Nat.mod_two_eq_zero_or_one n with h2 | h2
      · have hmod : (n + 1) % 2 = 1 := by omega
        have hdiv : (n + 1) / 2 = n / 2 := by omega
        have hacc : (runAccum d n).1 = 0 := by rw [ih1, h2]; simp
        have hstep : stepAccumFire (runAccum d n).1 d = (d, none) := by
          rw [hacc]; rcases hd with hd | hd <;> subst hd <;> decide
        rw [runAccum_succ, hstep, hmod, hdiv]
        simp [ih2]
      · have hmod : (n + 1) % 2 = 0 := by omega
        have hdiv : (n + 1) / 2 = n / 2 + 1 := by omega
        have hacc : (runAccum d n).1 = d := by rw [ih1, h2]; simp
        have hstep : stepAccumFire (runAccum d n).1 d = (0, some d) := by
          rw [hacc]; rcases hd with hd | hd <;> subst hd <;> decide
        rw [runAccum_succ, hstep, hmod, hdiv]
        simp [ih2, List.replicate_succ']

/-- Witness for C3 at d = 1, n = 5: two firings of +1 and a leftover
accumulator of 1. -/
theorem runAccum_unit_steps_witness :
    (runAccum 1 5).1 = 1 * ((5 % 2 : Nat) : Int) ∧
    (runAccum 1 5).2 = List.replicate (5 / 2) 1 :=
  runAccum_unit_steps 1 (Or.inl rfl) 5

/-- Claim C4: for every root pitch class and scale index, the seven
successive scale-degree intervals computed by setScaleIntervals sum to
12, closing the octave. -/
theorem scale_intervals_sum_to_twelve :
    ∀ s : Nat, s < 9 → ∀ r : Nat, r < 12 →
      (setScaleIntervals (scaleNoteList s r) (r : Int)).map List.sum = some 12 := by
  decide

/-- Witness for C4 at C major. -/
theorem scale_intervals_sum_to_twelve_witness :
    (setScaleIntervals (scaleNoteList 0 0) ((0 : Nat) : Int)).map List.sum = some 12 :=
  scale_intervals_sum_to_twelve 0 (by decide) 0 (by decide)

/-- Claim C5 counterexample: at degree 4 (V) of C major the
auto-classification yields a major chord, and the major seventh built by
generateChordForDegree contains pitch class 6 (the fixed interval of 11
semitones above the root G), not the degree d+6 scale tone 5 that the
spec sentence names; no tone of the generated chord equals that tone. -/
theorem seventh_chord_misses_degree_seven_tone :
    determineDiatonicTriadForDegree 0 0 4 = ChordType.triad ∧
    (generateChordForDegree 0 0 ChordType.seventh 4).map Chord.notes = some [7, 11, 2, 6] ∧
    specChordTones 0 0 4 true = [7, 11, 2, 5] ∧
    ¬ ((5 : Int) ∈ [(7 : Int), 11, 2, 6]) := by
  decide

/-- Claim C5 (amended): for every scale, root and degree, the diatonic
triad classified by determineDiatonicTriadForDegree and built by
generateChordForDegree consists of exactly the pitch classes at scale
degrees d, d+2, d+4 (mod 7); seventh chords instead add the fixed
characteristic interval of their type above the root. -/
theorem diatonic_triad_tones_match_spec :
    ∀ s : Nat, s < 9 → ∀ r : Nat, r < 12 → ∀ d : Nat, d < 7 →
      (generateChordForDegree s r (determineDiatonicTriadForDegree s r (d : Int)) (d : Int)).map
        Chord.notes = some (specChordTones s r d false) := by
  decide

/-- Witness for C5 at degree 0 of C major. -/
theorem diatonic_triad_tones_match_spec_witness :
    (generateChordForDegree 0 0 (determineDiatonicTriadForDegree 0 0 ((0 : Nat) : Int))
      ((0 : Nat) : Int)).map Chord.notes = some (specChordTones 0 0 0 false) :=
  diatonic_triad_tones_match_spec 0 (by decide) 0 (by decide) 0 (by decide)

/-- Claim C6: every parameter update wraps at its bounds — root 11 to 0
and 0 to 11, scale 8 to 0 and 0 to 8, octave 9 to -1 and -1 to 9, degree
6 to 0 and 0 to 6 — and for any input the wrapped value stays inside the
valid range, so no parameter change can error or escape its range. -/
theorem parameter_wraps_are_total :
    wrapRoot 11 1 = 0 ∧ wrapRoot 0 (-1) = 11 ∧
    wrapScaleNo 8 1 = 0 ∧ wrapScaleNo 0 (-1) = 8 ∧
    wrapOctave 9 1 = -1 ∧ wrapOctave (-1) (-1) = 9 ∧
    wrapChordDegree (6 + 1) = 0 ∧ wrapChordDegree (0 - 1) = 6 ∧
    (∀ r c : Int, 0 ≤ wrapRoot r c ∧ wrapRoot r c ≤ 11) ∧
    (∀ s c : Int, 0 ≤ wrapScaleNo s c ∧ wrapScaleNo s c ≤ 8) ∧
    (∀ o c : Int, -1 ≤ wrapOctave o c ∧ wrapOctave o c ≤ 9) ∧
    (∀ d : Int, 0 ≤ wrapChordDegree d ∧ wrapChordDegree d ≤ 6) := by
  refine ⟨by decide, by decide, by decide, by decide, by decide, by decide, by decide, by decide,
    ?_, ?_, ?_, ?_⟩
  · intro r c; unfold wrapRoot; dsimp only; split_ifs <;> omega
  · intro s c; unfold wrapScaleNo; dsimp only; split_ifs <;> omega
  · intro o c; unfold wrapOctave; dsimp only; split_ifs <;> omega
  · intro d; unfold wrapChordDegree; dsimp only; split_ifs <;> omega

/-- Claim C7: when a press reaches the hold threshold, the control
latches exactly when the active action of the (mode, submode, index)
table allows latching; the non-latching mode-cycle hold only toggles the
chord submode (encoder 7 in chord mode) and leaves the other button
flags alone, so a non-latching control never enters the latched
state. -/
theorem hold_latches_only_latching_actions (mode : SystemMode) (sub : ChordSubMode) (i : Fin 8)
    (b : BtnState) (now pressStart : Nat)
    (hH : b.holdProcessed = false) (hA : b.isActive = false)
    (hT : now - pressStart ≥ 1000) :
    ((holdDispatch mode sub i b true true now pressStart).1.isActive =
      allowsLatch (actionMapAt mode sub i)) ∧
    ((holdDispatch mode sub i b true true now pressStart).2 =
      if i.val = 7 ∧ mode = SystemMode.chordState then toggleChordSubMode sub else sub) ∧
    (allowsLatch (actionMapAt mode sub i) = false →
      (holdDispatch mode sub i b true true now pressStart).1.shortPress = b.shortPress ∧
      (holdDispatch mode sub i b true true now pressStart).1.waitingForNextPress =
        b.waitingForNextPress) := by
  fin_cases i <;> cases mode <;> cases sub <;>
    simp [holdDispatch, actionMapAt, actOnHold, allowsLatch, btnLatchHold, toggleChordSubMode,
      hH, hA, hT]

/-- Witness for C7: a hold on encoder 2 in scale mode (a note key, which
allows latching) latches the control. -/
theorem hold_latches_only_latching_actions_witness :
    (holdDispatch SystemMode.scaleState ChordSubMode.chordNormal 2 examplePressedBtn
      true true 2000 0).1.isActive =
      allowsLatch (actionMapAt SystemMode.scaleState ChordSubMode.chordNormal 2) :=
  (hold_latches_only_latching_actions SystemMode.scaleState ChordSubMode.chordNormal 2
    examplePressedBtn 2000 0 rfl rfl (by decide)).1

/-- Claim C8: once the hold has fired within a press (the dispatcher or
the action marked the hold as processed), the matching release performs
no short-press action — no MIDI, no parameter-mode cycle, no submode
toggle — and leaves the hold-processed flag set; only a fresh
btnStartPress resets the flag. -/
theorem hold_fired_suppresses_short_press (mode : SystemMode) (sub : ChordSubMode) (i : Fin 8)
    (b : BtnState) (ctx : ReleaseCtx) (now pressStart : Nat)
    (hH : b.holdProcessed = false) (hA : b.isActive = false)
    (hT : now - pressStart ≥ 1000)
    (hF : ((holdDispatch mode sub i b true true now pressStart).1).holdProcessed = true) :
    (actOnReleaseShort (actionMapAt mode sub i) i
      ((holdDispatch mode sub i b true true now pressStart).1) ctx).events = [] ∧
    (actOnReleaseShort (actionMapAt mode sub i) i
      ((holdDispatch mode sub i b true true now pressStart).1) ctx).encoder7Mode =
      ctx.encoder7Mode ∧
    (actOnReleaseShort (actionMapAt mode sub i) i
      ((holdDispatch mode sub i b true true now pressStart).1) ctx).sub = ctx.sub ∧
    (actOnReleaseShort (actionMapAt mode sub i) i
      ((holdDispatch mode sub i b true true now pressStart).1) ctx).btn.holdProcessed = true ∧
    (btnStartPress (actOnReleaseShort (actionMapAt mode sub i) i
      ((holdDispatch mode sub i b true true now pressStart).1) ctx).btn).holdProcessed
      = false := by
  fin_cases i <;> cases mode <;> cases sub <;>
    simp_all [holdDispatch, actionMapAt, actOnHold, actOnReleaseShort, allowsLatch,
      btnLatchHold, btnStartPress, btnReleaseShort, toggleChordSubMode]

/-- Witness for C8: encoder 2 in scale mode, held past the threshold and
then released. -/
theorem hold_fired_suppresses_short_press_witness :
    (actOnReleaseShort (actionMapAt SystemMode.scaleState ChordSubMode.chordNormal 2) 2
      ((holdDispatch SystemMode.scaleState ChordSubMode.chordNormal 2 examplePressedBtn
        true true 2000 0).1) exampleReleaseCtx).events = [] :=
  (hold_fired_suppresses_short_press SystemMode.scaleState ChordSubMode.chordNormal 2
    examplePressedBtn exampleReleaseCtx 2000 0 rfl rfl (by decide) (by decide)).1

/-- Claim C9 counterexample: a raw change propagates to the handler even
though the debounce machinery does not regard it as stable: with a fresh
debounce slot at time 3 ms the sample is inside the 5 ms window, so
isValueStable reports false, yet the loop's raw-bypass path propagates
the change. -/
theorem raw_change_propagates_while_unstable :
    loopPropagates (loopStableValue 1) 0 = true ∧
    (isValueStable 1 3
      { v0 := 0, v1 := 0, v2 := 0, idx := 0, lastDebounceTime := 0, lastStable := 0 }).1 =
      false := by
  decide

/-- Claim C9 (amended): isValueStable reports a value stable only when
the 5 ms window has elapsed, all three ring-buffer samples agree after
recording the new value, and the value differs from the last stable one;
but the loop bypasses the check entirely, assigning the raw reading to
the stable value, so propagation depends only on the raw reading
changing. -/
theorem stability_requires_window_and_agreement (v : Int) (t : Nat) (st : DebounceSlot)
    (h : (isValueStable v t st).1 = true) :
    t - st.lastDebounceTime > 5 ∧
    (writeSample st v).v1 = (writeSample st v).v0 ∧
    (writeSample st v).v2 = (writeSample st v).v0 ∧
    (writeSample st v).v0 ≠ st.lastStable ∧
    loopStableValue v = v := by
  unfold isValueStable at h
  dsimp only at h
  split_ifs at h with h1 h2
  exact ⟨h1, h2.1, h2.2.1, (writeSample_preserves_stable st v).1 ▸ h2.2.2, rfl⟩

/-- Witness for C9: a slot whose third sample completes agreement past
the window. -/
theorem stability_requires_window_and_agreement_witness :
    10 - exampleDebounceSlot.lastDebounceTime > 5 ∧
    (writeSample exampleDebounceSlot 7).v1 = (writeSample exampleDebounceSlot 7).v0 ∧
    (writeSample exampleDebounceSlot 7).v2 = (writeSample exampleDebounceSlot 7).v0 ∧
    (writeSample exampleDebounceSlot 7).v0 ≠ exampleDebounceSlot.lastStable ∧
    loopStableValue 7 = 7 :=
  stability_requires_window_and_agreement 7 10 exampleDebounceSlot (by decide)

/-- Claim C10: for every pitch class, scale note, encoder index and
octave, the MIDI note numbers computed by midiFromPitchClass and
getEncoderMidiNote lie in 0..127, so the note-output sink never receives
an out-of-range pitch. -/
theorem midi_notes_clamped_in_range :
    (∀ pitchClass currentOctave : Int,
      0 ≤ midiFromPitchClass pitchClass currentOctave ∧
      midiFromPitchClass pitchClass currentOctave ≤ 127) ∧
    (∀ encoderIndex : Nat, ∀ scaleNote currentOctave : Int,
      0 ≤ getEncoderMidiNote encoderIndex scaleNote currentOctave ∧
      getEncoderMidiNote encoderIndex scaleNote currentOctave ≤ 127) := by
  constructor
  · intro pc oct
    unfold midiFromPitchClass
    dsimp only
    split_ifs <;> omega
  · intro idx sn oct
    unfold getEncoderMidiNote
    dsimp only
    split_ifs <;> omega

end Enc8
